import Mathlib

/-!
Verification of `src/tasmotizer.py` (Tasmotizer fork, SmartHomeProject).

This file shallowly embeds the parts of the program that the claims are
about:

* the serial-response frame accumulator (`PinConfigDialog.read_json`,
  lines 335-355, with its initial counters from
  `PinConfigDialog.read_init_config`, lines 316-317);
* the flashing worker (`ESPWorker.run` / `wait_for_user` / `continue_ok` /
  `abort`, lines 49-84);
* the process dialog's download / flash dispatch
  (`ProcessDialog.saveBinFile`, `start_process`, `run_esp`,
  `updateBinProgress`, lines 692-747);
* the backup-size parameter construction (`ProcessDialog.run_esp`,
  line 725).

Python byte strings are modelled as `List Char`, Python ints as `Int`
(or `Nat` where the source value is a count).
-/

namespace Tasmotizer

/-- The character `{` (written via its code point so that no brace occurs
inside a string or character literal in this file). -/
def braceOpen : Char := '\x7b'

/-- The character `}`. -/
def braceClose : Char := '\x7d'

/-! ## A model of Python `json` values and `json.loads`

`read_json` calls the Python standard library `json.loads` on the text it
extracted.  We model the subset of JSON that the device protocol uses:
objects, arrays, strings (with single-character escapes), integer
numbers, `true`, `false`, `null`.  `jsonLoads` returns `none` where
`json.loads` raises `json.JSONDecodeError`. -/

/-- A parsed JSON value, as produced by Python's `json.loads`. -/
inductive Json where
  | null : Json
  | bool (b : Bool) : Json
  | num (n : Int) : Json
  | str (s : String) : Json
  | arr (elems : List Json) : Json
  | obj (members : List (String × Json)) : Json

/-- JSON whitespace skipping (space, tab, newline, carriage return). -/
def skipWs : List Char → List Char
  | [] => []
  | c :: rest =>
    if c = ' ' ∨ c = '\t' ∨ c = '\n' ∨ c = '\r' then skipWs rest else c :: rest

/-- Translation of a JSON single-character escape (`\n`, `\t`, ...);
any other escaped character stands for itself (`\"`, `\\`, `\/`). -/
def unescapeChar (c : Char) : Char :=
  if c = 'n' then '\n'
  else if c = 't' then '\t'
  else if c = 'r' then '\r'
  else if c = 'b' then Char.ofNat 8
  else if c = 'f' then Char.ofNat 12
  else c

/-- Parse the body of a JSON string after the opening quote, up to and
including the closing quote.  Returns the decoded characters and the
rest of the input. -/
def parseStrChars : Nat → List Char → Option (List Char × List Char)
  | 0, _ => none
  | _ + 1, [] => none
  | fuel + 1, c :: rest =>
    if c = '"' then some ([], rest)
    else if c = '\\' then
      match rest with
      | [] => none
      | e :: rest2 =>
        match parseStrChars fuel rest2 with
        | some (s, r) => some (unescapeChar e :: s, r)
        | none => none
    else
      match parseStrChars fuel rest with
      | some (s, r) => some (c :: s, r)
      | none => none

/-- Decimal digits of a number literal, most significant first. -/
def digitsToNat (ds : List Char) : Nat :=
  ds.foldl (fun acc c => acc * 10 + (c.toNat - 48)) 0

/-- Parse a JSON integer literal (optional minus sign, then digits). -/
def parseNumber (s : List Char) : Option (Int × List Char) :=
  match s with
  | '-' :: rest =>
    let ds := rest.takeWhile Char.isDigit
    if ds.isEmpty then none
    else some (-(digitsToNat ds : Int), rest.dropWhile Char.isDigit)
  | _ =>
    let ds := s.takeWhile Char.isDigit
    if ds.isEmpty then none
    else some ((digitsToNat ds : Int), s.dropWhile Char.isDigit)

mutual

/-- Parse one JSON value; returns it and the unconsumed rest. -/
def parseValue : Nat → List Char → Option (Json × List Char)
  | 0, _ => none
  | fuel + 1, s =>
    match skipWs s with
    | [] => none
    | c :: rest =>
      if c = braceOpen then
        match skipWs rest with
        | c2 :: r2 =>
          if c2 = braceClose then some (Json.obj [], r2)
          else
            match parseMembers fuel (c2 :: r2) with
            | some (ms, r) => some (Json.obj ms, r)
            | none => none
        | [] => none
      else if c = '[' then
        match skipWs rest with
        | ']' :: r2 => some (Json.arr [], r2)
        | r2 =>
          match parseItems fuel r2 with
          | some (xs, r) => some (Json.arr xs, r)
          | none => none
      else if c = '"' then
        match parseStrChars (rest.length + 1) rest with
        | some (cs, r) => some (Json.str (String.mk cs), r)
        | none => none
      else
        match c :: rest with
        | 't' :: 'r' :: 'u' :: 'e' :: r => some (Json.bool true, r)
        | 'f' :: 'a' :: 'l' :: 's' :: 'e' :: r => some (Json.bool false, r)
        | 'n' :: 'u' :: 'l' :: 'l' :: r => some (Json.null, r)
        | s' =>
          match parseNumber s' with
          | some (n, r) => some (Json.num n, r)
          | none => none

/-- Parse the members of a JSON object after `[ws]` following the opening
brace, up to and including the closing brace. -/
def parseMembers : Nat → List Char → Option (List (String × Json) × List Char)
  | 0, _ => none
  | fuel + 1, s =>
    match skipWs s with
    | '"' :: rest =>
      match parseStrChars (rest.length + 1) rest with
      | none => none
      | some (key, r1) =>
        match skipWs r1 with
        | ':' :: r2 =>
          match parseValue fuel r2 with
          | none => none
          | some (v, r3) =>
            match skipWs r3 with
            | ',' :: r4 =>
              match parseMembers fuel r4 with
              | some (ms, r5) => some ((String.mk key, v) :: ms, r5)
              | none => none
            | c4 :: r4 =>
              if c4 = braceClose then some ([(String.mk key, v)], r4) else none
            | [] => none
        | _ => none
    | _ => none

/-- Parse the items of a JSON array, up to and including `]`. -/
def parseItems : Nat → List Char → Option (List Json × List Char)
  | 0, _ => none
  | fuel + 1, s =>
    match parseValue fuel s with
    | none => none
    | some (v, r1) =>
      match skipWs r1 with
      | ',' :: r2 =>
        match parseItems fuel r2 with
        | some (xs, r3) => some (v :: xs, r3)
        | none => none
      | ']' :: r2 => some ([v], r2)
      | _ => none

end

/-- Model of Python `json.loads`: parse one value, allow trailing
whitespace, reject any other trailing input ("Extra data"). -/
def jsonLoads (s : String) : Option Json :=
  match parseValue (s.length + 1) s.data with
  | some (v, rest) => if (skipWs rest).isEmpty then some v else none
  | none => none

example : jsonLoads "\x7b\x7d" = some (Json.obj []) := by rfl

example :
    jsonLoads "\x7b\"a\": \x7b\"b\": 1\x7d\x7d"
      = some (Json.obj [("a", Json.obj [("b", Json.num 1)])]) := by rfl

example : jsonLoads "\x7b\x7b\x7d\x7d" = none := by rfl

/-! ## The frame accumulator (`PinConfigDialog.read_json`)

Source, lines 335-355:
```
def read_json(self):
    json_match = re.compile(r"\{.*\}")
    bracket_open = re.compile(rb'\{')
    bracket_close = re.compile(rb'\}')
    data = self.port.readAll()
    self.brackets['{'] += len(bracket_open.findall(data))
    if self.brackets['{'] > 0:
        self.brackets['}'] = 0
    self.brackets['}'] += len(bracket_close.findall(data))
    self.data += data
    if self.brackets['{'] - self.brackets['}'] == 0:
        to_parse = str(self.data, 'utf-8').replace('\r', '').replace('\n', '')
        ret = json_match.findall(to_parse)
        if len(ret) > 0:
            self.jsons.append(json.loads(ret[0]))
        self.components_done.emit()
        self.data = b''
```
and the initialisation from `read_init_config`, lines 316-317:
`self.jsons = []`, `self.brackets = {'{' : 0, '}' : -1}`.

The accumulated buffer `self.data` is *never initialised* in the source:
`__init__` sets `self.read_data = []` (line 297), not `self.data`, and
the only assignment `self.data = b''` (line 355) sits inside the
completion branch, after line 345 has already read the attribute.  So
`self.data += data` (line 345) raises `AttributeError` on every call:
lines 341-344 (the counter updates) execute, the rest of the method does
not, the exception leaves the Qt slot uncaught, and `self.jsons` never
changes.  The buffer is therefore modelled as `Option (List Char)`,
`none` standing for "attribute not set" (reading it raises), which is
its state on every reachable call. -/

/-- Number of occurrences of `ch` in a chunk — models
`len(re.findall(...))` for a single-character pattern. -/
def countChar (ch : Char) (s : List Char) : Nat := s.count ch

/-- Models `str(self.data, 'utf-8').replace('\r', '').replace('\n', '')`. -/
def stripCRLF (s : List Char) : List Char :=
  s.filter (fun c => !(c == '\r' || c == '\n'))

/-- Drop characters up to (not including) the first `{`. -/
def dropUntilOpen : List Char → List Char
  | [] => []
  | c :: rest => if c = braceOpen then c :: rest else dropUntilOpen rest

/-- Models `re.findall(r"\{.*\}", s)[0]` (with `none` when `findall`
returns no match): the greedy match runs from the first `{` to the last
`}` of the line, provided such a pair exists in that order. -/
def extractJson (s : List Char) : Option (List Char) :=
  match dropUntilOpen s with
  | [] => none
  | t =>
    let r := t.reverse.dropWhile (fun c => !(c == braceClose))
    if r.isEmpty then none else some r.reverse

/-- The two counters `self.brackets['{']` and `self.brackets['}']`. -/
structure Brackets where
  openCount : Int
  closeCount : Int
deriving DecidableEq, Repr

/-- The counter update performed by lines 341-344 of `read_json`:
`open += count; if open > 0: close = 0; close += count`. -/
def updateBrackets (b : Brackets) (chunk : List Char) : Brackets :=
  let o := b.openCount + (countChar braceOpen chunk : Int)
  let c0 := if o > 0 then (0 : Int) else b.closeCount
  ⟨o, c0 + (countChar braceClose chunk : Int)⟩

/-- The mutable state of `PinConfigDialog` that `read_json` touches:
the counters, the accumulated buffer `self.data` (`none` while the
attribute has never been assigned — reading it raises
`AttributeError`), and the list `self.jsons` of parsed messages. -/
structure ReaderState where
  brackets : Brackets
  data : Option (List Char)
  jsons : List Json

/-- The observable outcome of one `read_json` call: the state afterwards,
the message appended to `self.jsons` this call (if any), whether the
completion branch ran (`components_done.emit()` fired), whether
`json.loads` raised, and whether `self.data += data` raised
`AttributeError` (line 345; either exception leaves the slot uncaught:
nothing is appended and the lines after the raise do not run). -/
structure StepResult where
  state : ReaderState
  emitted : Option Json
  completed : Bool
  parseError : Bool
  attrError : Bool

/-- One call of `read_json` processing the freshly arrived `chunk`.
The counter updates (lines 341-344) always execute; if `self.data` has
never been assigned, line 345 then raises `AttributeError` and the
completion check is never reached. -/
def readJson (st : ReaderState) (chunk : List Char) : StepResult :=
  let bks := updateBrackets st.brackets chunk
  match st.data with
  | none =>
    { state := { brackets := bks, data := none, jsons := st.jsons },
      emitted := none, completed := false, parseError := false,
      attrError := true }
  | some buf =>
    let data := buf ++ chunk
    if bks.openCount - bks.closeCount = 0 then
      match extractJson (stripCRLF data) with
      | some m =>
        match jsonLoads (String.mk m) with
        | some v =>
          { state := { brackets := bks, data := some [],
                       jsons := st.jsons ++ [v] },
            emitted := some v, completed := true, parseError := false,
            attrError := false }
        | none =>
          { state := { brackets := bks, data := some data,
                       jsons := st.jsons },
            emitted := none, completed := false, parseError := true,
            attrError := false }
      | none =>
        { state := { brackets := bks, data := some [], jsons := st.jsons },
          emitted := none, completed := true, parseError := false,
          attrError := false }
    else
      { state := { brackets := bks, data := some data, jsons := st.jsons },
        emitted := none, completed := false, parseError := false,
        attrError := false }

/-- The state set up by `read_init_config` before the first byte arrives:
`brackets = {'{': 0, '}': -1}`, `jsons = []`, and `self.data` still
unassigned (`__init__` only ever sets `self.read_data`). -/
def initState : ReaderState := ⟨⟨0, -1⟩, none, []⟩

/-- Feed a sequence of chunks, one `read_json` call per chunk. -/
def feedAll : ReaderState → List (List Char) → ReaderState
  | st, [] => st
  | st, c :: cs => feedAll (readJson st c).state cs

/-- The nested-brace response text of §8.2 of the spec. -/
def nestedText : List Char := "\x7b\"a\": \x7b\"b\": 1\x7d\x7d".data

/-! ## The flashing worker (`ESPWorker`, lines 31-84)

`ESPWorker.run` executes the configured actions in order: an optional
backup (`esptool.main(['read_flash', ...])`), then — if `auto_reset` is
false — `wait_for_user` (emit `waiting`, busy-wait on `self._continue`
until `continue_ok()` sets it), then — if the shared
`esptool.sw.continueFlag()` is still true and `write` is configured —
the write (`esptool.main(['write_flash', ...])`, with `--erase-all`
appended when `erase` is configured), and finally `done.emit()`.
`abort()` performs `esptool.sw.setContinueFlag(False)`.

The model below records the externally visible events of one `run` in
order.  The busy-wait is modelled by a `UserResponse` parameter saying
how (if ever) the wait is resolved by the GUI: `ok` (the user pressed OK,
`continue_ok()`), `cancel` (the user pressed Cancel: `abort()` then
`continue_ok()`, per `ProcessDialog.wait_for_user`), or `noResponse`
(no call ever arrives: the loop spins forever and `run` does not
terminate — the Bool component of the result is false and the events
stop at the `waiting` signal).  Driver exceptions (`esptool.FatalError`,
`serial.SerialException`) are outside the claims modelled here. -/

namespace ESPWorker

/-- The action names placed in `self._actions` by `ProcessDialog`. -/
inductive Action where
  | download : Action
  | backup : Action
  | erase : Action
  | write : Action
deriving DecidableEq, Repr

/-- The keyword parameters of `ESPWorker` used by `run`. -/
structure Params where
  backup_size : String
  auto_reset : Bool
  file_path : String

/-- Externally visible events of one `ESPWorker.run`, in order. -/
inductive RunEvent where
  | cmdBackup (size : String) : RunEvent
  | waitingSignal : RunEvent
  | userContinue : RunEvent
  | cmdWrite (path : String) (eraseAll : Bool) : RunEvent
  | doneSignal : RunEvent
deriving DecidableEq, Repr

/-- How the GUI resolves the `wait_for_user` busy-wait. -/
inductive UserResponse where
  | ok : UserResponse
  | cancel : UserResponse
  | noResponse : UserResponse
deriving DecidableEq, Repr

/-- The global switch object `esptool.sw` holding the shared continue
flag. -/
structure Sw where
  continueFlag : Bool
deriving DecidableEq, Repr

/-- `esptool.sw.setContinueFlag(b)`. -/
def setContinueFlag (b : Bool) (_sw : Sw) : Sw := ⟨b⟩

/-- `ESPWorker.abort` (line 83-84): clears the shared continue flag. -/
def abort (sw : Sw) : Sw := setContinueFlag false sw

/-- The guarded write of lines 62-68: issued only when the shared
continue flag is still set and `write` is among the actions. -/
def writeCommands (contFlag : Bool) (actions : List Action) (p : Params) :
    List RunEvent :=
  if contFlag = true ∧ Action.write ∈ actions then
    [RunEvent.cmdWrite p.file_path (Action.erase ∈ actions : Bool)]
  else []

/-- `ESPWorker.run` (lines 49-72).  The flag starts true
(`setContinueFlag(True)` on entry) and is false at the write guard
exactly when `abort()` ran meanwhile (modelled by the `cancel`
response).  Returns (run terminated?, events so far). -/
def run (actions : List Action) (p : Params) (resp : UserResponse) :
    Bool × List RunEvent :=
  if Action.backup ∈ actions then
    let backupEv := [RunEvent.cmdBackup p.backup_size]
    if p.auto_reset then
      (true, backupEv ++ writeCommands true actions p ++ [RunEvent.doneSignal])
    else
      match resp with
      | UserResponse.noResponse =>
        (false, backupEv ++ [RunEvent.waitingSignal])
      | UserResponse.ok =>
        (true, backupEv ++ [RunEvent.waitingSignal, RunEvent.userContinue]
          ++ writeCommands true actions p ++ [RunEvent.doneSignal])
      | UserResponse.cancel =>
        (true, backupEv ++ [RunEvent.waitingSignal, RunEvent.userContinue]
          ++ writeCommands false actions p ++ [RunEvent.doneSignal])
  else
    (true, writeCommands true actions p ++ [RunEvent.doneSignal])

end ESPWorker

/-! ## The process dialog (`ProcessDialog`, lines 631-785) -/

namespace ProcessDialog

/-- The backup-size parameter string built by `run_esp` (line 725):
`f'0x{2 ** self.backup_size}00000'` — the *decimal* digits of `2 ** n`
spliced into a hex literal. -/
def backup_size_param (n : Nat) : String :=
  "0x" ++ toString (2 ^ n) ++ "00000"

/-- Value of one hexadecimal digit. -/
def hexDigitVal (c : Char) : Option Nat :=
  if '0' ≤ c ∧ c ≤ '9' then some (c.toNat - 48)
  else if 'a' ≤ c ∧ c ≤ 'f' then some (c.toNat - 87)
  else if 'A' ≤ c ∧ c ≤ 'F' then some (c.toNat - 55)
  else none

/-- The number of bytes the flashing driver reads for a size argument:
esptool parses CLI integers with `int(arg, 0)`, so a `0x`-prefixed
string denotes a hexadecimal value. -/
def hexValue (s : String) : Option Nat :=
  match s.data with
  | '0' :: 'x' :: ds =>
    if ds.isEmpty then none
    else
      ds.foldl
        (fun acc c => acc.bind (fun a => (hexDigitVal c).map (fun d => a * 16 + d)))
        (some 0)
  | _ => none

example : hexValue (backup_size_param 2) = some 0x400000 := by rfl
example : hexValue (backup_size_param 4) = some 23068672 := by rfl

/-- Outcome of the download-completion handler: whether `run_esp` (the
sole path to the flashing worker) was invoked, and whether
`raise NetworkError` executed. -/
structure SaveBinResult where
  espInvoked : Bool
  networkErrorRaised : Bool
deriving DecidableEq, Repr

/-- `ProcessDialog.saveBinFile` (lines 695-702), keyed on the
`QNetworkReply` error code (`NoError` is code 0): on success the file is
written and `run_esp()` starts the flashing worker; otherwise
`raise NetworkError`. -/
def saveBinFile (errorCode : Nat) : SaveBinResult :=
  if errorCode = 0 then ⟨true, false⟩ else ⟨false, true⟩

/-- `ProcessDialog.start_process` (lines 742-747) composed with the
eventual download outcome: with a `download` action the flashing worker
is only reached through `saveBinFile` when the reply finishes; without
one, `run_esp()` is called directly. -/
def start_process (actions : List ESPWorker.Action) (errorCode : Nat) :
    SaveBinResult :=
  if ESPWorker.Action.download ∈ actions then saveBinFile errorCode
  else ⟨true, false⟩

/-- `ProcessDialog.updateBinProgress` (lines 704-705): the value put on
the download progress bar is `recv//total*100`, Python floor division
(`Int.fdiv`) binding tighter than the multiplication. -/
def updateBinProgress (recv total : Int) : Int :=
  recv.fdiv total * 100

end ProcessDialog

/-! ## Helper lemmas -/

theorem dropUntilOpen_eq_nil {s : List Char} (h : braceOpen ∉ s) :
    dropUntilOpen s = [] := by
  induction s with
  | nil => rfl
  | cons c rest ih =>
    have hc : ¬ c = braceOpen := fun hc => h (hc ▸ List.mem_cons_self c rest)
    simp only [dropUntilOpen, if_neg hc]
    exact ih (fun hm => h (List.mem_cons_of_mem c hm))

theorem extractJson_eq_none {s : List Char} (h : braceOpen ∉ s) :
    extractJson s = none := by
  simp only [extractJson, dropUntilOpen_eq_nil h]

theorem not_mem_stripCRLF {s : List Char} (h : braceOpen ∉ s) :
    braceOpen ∉ stripCRLF s :=
  fun hm => h (List.mem_of_mem_filter hm)

/-- In every branch of `read_json` — the `AttributeError` one included —
the resulting counters are the ones computed by the counter-update lines
341-344, which run before line 345 can raise. -/
theorem readJson_brackets (st : ReaderState) (chunk : List Char) :
    (readJson st chunk).state.brackets = updateBrackets st.brackets chunk := by
  simp only [readJson]
  split
  · rfl
  · split
    · split
      · split <;> rfl
      · rfl
    · rfl

/-- A `read_json` call on a state whose `self.data` attribute was never
assigned raises `AttributeError` at line 345: nothing is emitted, the
window never completes, `self.jsons` is unchanged and `self.data` stays
unassigned. -/
theorem readJson_uninitialized (st : ReaderState) (chunk : List Char)
    (h : st.data = none) :
    (readJson st chunk).emitted = none
  ∧ (readJson st chunk).state.data = none
  ∧ (readJson st chunk).state.jsons = st.jsons
  ∧ (readJson st chunk).completed = false
  ∧ (readJson st chunk).attrError = true := by
  simp [readJson, h]

/-- Starting from the program's actual initial state (`self.data` never
assigned), every call raises before the completion check, so no feed
ever changes `self.jsons` or assigns the buffer. -/
theorem feedAll_uninitialized (chunks : List (List Char)) :
    ∀ st : ReaderState, st.data = none →
      (feedAll st chunks).jsons = st.jsons
    ∧ (feedAll st chunks).data = none := by
  induction chunks with
  | nil => exact fun st h => ⟨rfl, h⟩
  | cons c cs ih =>
    intro st h
    have hstep := readJson_uninitialized st c h
    have hrest := ih (readJson st c).state hstep.2.1
    exact ⟨by rw [feedAll, hrest.1, hstep.2.2.1], by rw [feedAll]; exact hrest.2⟩

/-- A `read_json` call on an assigned, `{`-free buffer with a `{`-free
chunk emits nothing, leaves `self.jsons` unchanged, and leaves an
assigned `{`-free buffer. -/
theorem readJson_no_open_step (st : ReaderState) (buf chunk : List Char)
    (hb : st.data = some buf) (hd : braceOpen ∉ buf) (hc : braceOpen ∉ chunk) :
    (readJson st chunk).emitted = none
  ∧ (readJson st chunk).state.jsons = st.jsons := by
  have hnc : braceOpen ∉ buf ++ chunk := by
    intro hm
    rcases List.mem_append.mp hm with hm | hm
    · exact hd hm
    · exact hc hm
  have hx : extractJson (stripCRLF (buf ++ chunk)) = none :=
    extractJson_eq_none (not_mem_stripCRLF hnc)
  simp only [readJson, hb, hx]
  split
  · exact ⟨rfl, rfl⟩
  · exact ⟨rfl, rfl⟩

/-! ## Claim theorems -/

/-- C1 (counterexample): the close-brace counter is reset on a *later*
chunk, not only at the moment the open-brace counter first becomes
positive.  After the first chunk `\x7b\x7d` the open counter is already
positive and the close counter is 1; the second chunk is a single
`\x7d`, yet afterwards the close counter is 1 — the chunk's own count —
and not the 1 + 1 that reset-only-at-first-positive would leave.  (These
counter updates, lines 341-344, are real program behaviour: they run
before line 345 raises.) -/
theorem close_reset_on_later_chunk_cex :
    (feedAll initState [[braceOpen, braceClose]]).brackets.openCount > 0
  ∧ (feedAll initState [[braceOpen, braceClose]]).brackets.closeCount = 1
  ∧ (feedAll initState
        [[braceOpen, braceClose], [braceClose]]).brackets.closeCount = 1
  ∧ (feedAll initState
        [[braceOpen, braceClose], [braceClose]]).brackets.closeCount
      ≠ (feedAll initState [[braceOpen, braceClose]]).brackets.closeCount
        + (countChar braceClose [braceClose] : Int) := by
  decide

/-- C1 (amended): the close-brace counter is reset to 0 on *every*
`read_json` call in which the open-brace counter is positive — not only
when it first becomes positive — so after any such call the close
counter equals the number of close braces in that call's chunk alone;
and the completed-message sequence is the same for every chunking only
vacuously: because `self.data` is never initialised, every call raises
at line 345 and every feed from the program's initial state completes no
message at all. -/
theorem close_counter_reset_every_call :
    (∀ (st : ReaderState) (chunk : List Char),
      st.brackets.openCount + (countChar braceOpen chunk : Int) > 0 →
      (readJson st chunk).state.brackets.closeCount
        = (countChar braceClose chunk : Int))
  ∧ (∀ chunks : List (List Char), (feedAll initState chunks).jsons = []) := by
  constructor
  · intro st chunk h
    rw [readJson_brackets]
    simp only [updateBrackets, if_pos h, Int.zero_add]
  · exact fun chunks => (feedAll_uninitialized chunks initState rfl).1

/-- Witness for `close_counter_reset_every_call` at the concrete call
feeding `\x7b\x7d` to the initial state. -/
theorem close_counter_reset_every_call_witness :
    (readJson initState [braceOpen, braceClose]).state.brackets.closeCount
      = (countChar braceClose [braceOpen, braceClose] : Int) :=
  close_counter_reset_every_call.1 initState [braceOpen, braceClose]
    (by decide)

/-- C6 (code bug): a stray close brace — like every other chunk — never
reaches the completion check: `read_json` raises `AttributeError` at
line 345 (`self.data` was never initialised), so no accumulation window
ever completes, and no malformed-frame error is ever reported to the
caller; the `parseError` channel (`json.loads` raising) never fires
either.  The claimed `FrameError::Malformed` report does not exist in
the program. -/
theorem malformed_window_no_error_report :
    (readJson initState [braceClose]).attrError = true
  ∧ (readJson initState [braceClose]).completed = false
  ∧ (readJson initState [braceClose]).emitted = none
  ∧ (readJson initState [braceClose]).parseError = false :=
  ⟨rfl, rfl, rfl, rfl⟩

/-- C7: a close brace arriving before any open brace never completes a
message: a `read_json` call whose accumulation window contains no `{`
emits nothing (whether the buffer attribute is unassigned or assigned
and `{`-free), and a whole stream of `{`-free chunks fed from the
initial state leaves `self.jsons` empty — emitting an actual message
requires an open brace (hence a positive open count) in the current
window. -/
theorem no_open_brace_no_message :
    (∀ (st : ReaderState) (chunk : List Char),
      (∀ buf, st.data = some buf → braceOpen ∉ buf) → braceOpen ∉ chunk →
      (readJson st chunk).emitted = none)
  ∧ (∀ chunks : List (List Char), (∀ c ∈ chunks, braceOpen ∉ c) →
      (feedAll initState chunks).jsons = []) := by
  constructor
  · intro st chunk hbuf hc
    cases hb : st.data with
    | none => exact (readJson_uninitialized st chunk hb).1
    | some buf => exact (readJson_no_open_step st buf chunk hb (hbuf buf hb) hc).1
  · exact fun chunks _ => (feedAll_uninitialized chunks initState rfl).1

/-- Witness for `no_open_brace_no_message` on the concrete stream
consisting of one stray close brace. -/
theorem no_open_brace_no_message_witness :
    (feedAll initState [[braceClose]]).jsons = [] :=
  no_open_brace_no_message.2 [[braceClose]] (by decide)

/-- C8 (code bug): no completed message emission ever occurs — feeding
`\x7b\x7d` raises `AttributeError` at line 345 before the completion
branch — and the counters (updated by lines 341-344 before the raise)
persist at `open = 1`, `close = 1`, which is *not* the initial
`open = 0`, `close = -1`; the buffer attribute stays unassigned.  The
claimed return-to-initial-state after emission is unreachable
behaviour. -/
theorem no_emission_counters_persist :
    (readJson initState [braceOpen, braceClose]).attrError = true
  ∧ (readJson initState [braceOpen, braceClose]).emitted = none
  ∧ (readJson initState [braceOpen, braceClose]).state.data = none
  ∧ (readJson initState [braceOpen, braceClose]).state.brackets = ⟨1, 1⟩
  ∧ (readJson initState [braceOpen, braceClose]).state.brackets
      ≠ initState.brackets :=
  ⟨rfl, rfl, rfl, rfl, by decide⟩

/-- C9 (code bug): feeding the nested-brace response text
`\x7b"a": \x7b"b": 1\x7d\x7d` in a single call yields *no* completed
message: the call raises `AttributeError` at line 345 (`__init__` sets
`self.read_data`, line 297, never `self.data`), so `self.jsons` stays
empty instead of holding the one object the claim describes. -/
theorem nested_object_crashes_no_message :
    (readJson initState nestedText).attrError = true
  ∧ (feedAll initState [nestedText]).jsons = [] :=
  ⟨rfl, rfl⟩

/-- C2: for a backup + write run with `auto_reset = false`, the worker
enters the awaiting-user wait exactly once — after the backup command
and before the write command — and while `continue_ok()` has not been
called the run is still stuck at the wait with no write issued. -/
theorem backup_then_wait_then_write (p : ESPWorker.Params)
    (h : p.auto_reset = false) :
    ESPWorker.run [ESPWorker.Action.backup, ESPWorker.Action.write] p
        ESPWorker.UserResponse.ok
      = (true, [ESPWorker.RunEvent.cmdBackup p.backup_size,
                ESPWorker.RunEvent.waitingSignal,
                ESPWorker.RunEvent.userContinue,
                ESPWorker.RunEvent.cmdWrite p.file_path false,
                ESPWorker.RunEvent.doneSignal])
  ∧ ESPWorker.run [ESPWorker.Action.backup, ESPWorker.Action.write] p
        ESPWorker.UserResponse.noResponse
      = (false, [ESPWorker.RunEvent.cmdBackup p.backup_size,
                 ESPWorker.RunEvent.waitingSignal]) := by
  constructor <;> simp [ESPWorker.run, ESPWorker.writeCommands, h]

/-- Witness for `backup_then_wait_then_write` at concrete parameters. -/
theorem backup_then_wait_then_write_witness :
    ESPWorker.run [ESPWorker.Action.backup, ESPWorker.Action.write]
        ⟨"0x100000", false, "tasmota.bin"⟩ ESPWorker.UserResponse.ok
      = (true, [ESPWorker.RunEvent.cmdBackup "0x100000",
                ESPWorker.RunEvent.waitingSignal,
                ESPWorker.RunEvent.userContinue,
                ESPWorker.RunEvent.cmdWrite "tasmota.bin" false,
                ESPWorker.RunEvent.doneSignal])
  ∧ ESPWorker.run [ESPWorker.Action.backup, ESPWorker.Action.write]
        ⟨"0x100000", false, "tasmota.bin"⟩ ESPWorker.UserResponse.noResponse
      = (false, [ESPWorker.RunEvent.cmdBackup "0x100000",
                 ESPWorker.RunEvent.waitingSignal]) :=
  backup_then_wait_then_write ⟨"0x100000", false, "tasmota.bin"⟩ rfl

/-- C3 (counterexample): for size class `n = 4` the string built by
`run_esp` is `0x1600000` — the decimal digits of `2 ** 4` spliced into a
hex literal — which denotes 23068672 bytes (22 MB), not
`2 ^ 4 * 0x100000 = 16777216` bytes (16 MB). -/
theorem backup_size_class_four_cex :
    ProcessDialog.hexValue (ProcessDialog.backup_size_param 4) = some 23068672
  ∧ (23068672 : Nat) ≠ 2 ^ 4 * 0x100000 :=
  ⟨rfl, by decide⟩

/-- C3 (amended): for size classes `n ∈ [0, 3]` the `backup_size`
parameter denotes a region of exactly `2 ^ n` megabytes — in particular
`n = 2` yields exactly `0x400000` bytes — but for `n = 4` the
hex-literal splice makes the value 23068672 bytes instead of 16 MB. -/
theorem backup_size_class_pow2_below_four :
    ∀ n : Nat, n < 4 →
      ProcessDialog.hexValue (ProcessDialog.backup_size_param n)
        = some (2 ^ n * 0x100000) := by
  decide

/-- Witness for `backup_size_class_pow2_below_four` at the size class
`n = 2` named by the claim. -/
theorem backup_size_class_pow2_below_four_witness :
    ProcessDialog.hexValue (ProcessDialog.backup_size_param 2)
      = some (2 ^ 2 * 0x100000) :=
  backup_size_class_pow2_below_four 2 (by decide)

/-- C4: when the first stage is a download and the network reply finishes
with a non-success status (a nonzero `QNetworkReply` error code),
`raise NetworkError` executes and `run_esp` — the only path to the
flashing worker — is never invoked. -/
theorem download_failure_no_flash (actions : List ESPWorker.Action)
    (errorCode : Nat)
    (hd : ESPWorker.Action.download ∈ actions)
    (he : errorCode ≠ 0) :
    (ProcessDialog.start_process actions errorCode).networkErrorRaised = true
  ∧ (ProcessDialog.start_process actions errorCode).espInvoked = false := by
  simp [ProcessDialog.start_process, ProcessDialog.saveBinFile, hd, he]

/-- Witness for `download_failure_no_flash` at the concrete action list
`[download, write]` with error code 1. -/
theorem download_failure_no_flash_witness :
    (ProcessDialog.start_process
        [ESPWorker.Action.download, ESPWorker.Action.write] 1).networkErrorRaised
      = true
  ∧ (ProcessDialog.start_process
        [ESPWorker.Action.download, ESPWorker.Action.write] 1).espInvoked
      = false :=
  download_failure_no_flash [ESPWorker.Action.download, ESPWorker.Action.write]
    1 (by decide) (by decide)

/-- C5: `abort()` clears the shared continue flag, a second `abort()` is
a no-op on the state (idempotence, and a total function: no error), and
with the flag cleared the guarded write stage issues no command. -/
theorem abort_clears_flag_idempotent (sw : ESPWorker.Sw)
    (actions : List ESPWorker.Action) (p : ESPWorker.Params) :
    (ESPWorker.abort sw).continueFlag = false
  ∧ ESPWorker.abort (ESPWorker.abort sw) = ESPWorker.abort sw
  ∧ ESPWorker.writeCommands (ESPWorker.abort sw).continueFlag actions p
      = [] := by
  refine ⟨rfl, rfl, ?_⟩
  simp [ESPWorker.writeCommands, ESPWorker.abort, ESPWorker.setContinueFlag]

/-- `Int.fdiv` on two nonnegative numerators/denominators is plain
natural division. -/
theorem fdiv_ofNat (a b : Nat) :
    Int.fdiv (a : Int) (b : Int) = ((a / b : Nat) : Int) := by
  cases a with
  | zero => rw [Nat.zero_div]; rfl
  | succ a' => rfl

/-- C10: the download progress value `recv//total*100` floors before
multiplying: for `0 < recv < total` it is 0, and (for a well-formed
callback with `0 ≤ recv ≤ total`, `0 < total`) it is 100 exactly when
`recv = total`. -/
theorem download_progress_floor_division (recv total : Int) :
    (0 < recv → recv < total →
      ProcessDialog.updateBinProgress recv total = 0)
  ∧ (0 ≤ recv → 0 < total → recv ≤ total →
      (ProcessDialog.updateBinProgress recv total = 100 ↔ recv = total)) := by
  constructor
  · intro h1 h2
    obtain ⟨a, rfl⟩ := Int.eq_ofNat_of_zero_le h1.le
    obtain ⟨b, rfl⟩ := Int.eq_ofNat_of_zero_le (h1.trans h2).le
    have hab : a < b := by exact_mod_cast h2
    simp [ProcessDialog.updateBinProgress, fdiv_ofNat, Nat.div_eq_of_lt hab]
  · intro h0 hpos hle
    obtain ⟨a, rfl⟩ := Int.eq_ofNat_of_zero_le h0
    obtain ⟨b, rfl⟩ := Int.eq_ofNat_of_zero_le hpos.le
    have hb : 0 < b := by exact_mod_cast hpos
    have hab : a ≤ b := by exact_mod_cast hle
    constructor
    · intro h100
      rcases Nat.lt_or_ge a b with hlt | hge
      · rw [ProcessDialog.updateBinProgress, fdiv_ofNat,
            Nat.div_eq_of_lt hlt] at h100
        cases h100
      · have : a = b := Nat.le_antisymm hab hge
        exact_mod_cast this
    · intro heq
      obtain rfl : a = b := by exact_mod_cast heq
      rw [ProcessDialog.updateBinProgress, fdiv_ofNat, Nat.div_self hb]
      rfl

/-- Witness for `download_progress_floor_division`: with 3 of 7 bytes
received the bar shows 0, and 100 is reached exactly at 7 of 7. -/
theorem download_progress_floor_division_witness :
    ProcessDialog.updateBinProgress 3 7 = 0
  ∧ (ProcessDialog.updateBinProgress 7 7 = 100 ↔ (7 : Int) = 7) :=
  ⟨(download_progress_floor_division 3 7).1 (by decide) (by decide),
   (download_progress_floor_division 7 7).2 (by decide) (by decide) (by decide)⟩

end Tasmotizer
